import Mathlib

/-!
Verification of the USDT withdrawal module (`src/blockchain.py`) of the
`botcode` repository.

The module is a thin orchestrator around a Web3 chain client.  We embed it
shallowly: the chain client (an external collaborator) is a record of
oracles (`ChainEnv`), Python exceptions are an explicit sum type (`PyExc`),
and every method of `BlockchainManager` becomes a pure Lean function over
the oracle record.  Token amounts, which are Python floats in the source,
are idealised as exact rationals (`ℚ`) throughout the main model; the one
claim that is genuinely about binary floating point (the decimal-to-base-
unit conversion on line 125) is additionally analysed against a faithful
IEEE-754 binary64 model (`fl64`) defined at the end of the definitions
section.

Besides its `(success, message)` result, the embedded `withdraw_usdt`
returns the list of chain-client interactions it performed (`Effect`),
so that "no broadcast occurs" style properties are statable.
-/

/-- Python exceptions distinguished by the handler in `withdraw_usdt`
(lines 179-187): `web3.exceptions.ContractLogicError`, `ValueError`, and
any other `Exception`.  Each carries its rendered message `str(e)`. -/
inductive PyExc
  | contractLogic (msg : String)
  | valueError (msg : String)
  | other (msg : String)
deriving DecidableEq

/-- A transaction receipt as used by the source: only its `status` field
(1 = success, 0 = reverted) is inspected. -/
structure Receipt where
  status : ℤ
deriving DecidableEq

/-- Outcome of one `get_transaction_receipt` lookup inside the polling loop
of `wait_for_transaction` (lines 193-201): the receipt is found, the node
raises `TransactionNotFound` (the normal "not mined yet" condition), or the
lookup raises some other exception. -/
inductive PollResult
  | found (r : Receipt)
  | notYet
  | err (e : PyExc)
deriving DecidableEq

/-- The chain client consumed by `BlockchainManager`, as a record of
oracles.  Each field models one Web3 operation the source invokes; a
`.error e` value means that invocation raises the Python exception `e`.
`polls` is the sequence of receipt-lookup outcomes that occur before the
120-second timeout window of `wait_for_transaction` closes; the window
closing with no receipt found corresponds to the list being exhausted. -/
structure ChainEnv where
  /-- `w3.is_address` (line 50). -/
  is_address : String → Except PyExc Bool
  /-- `Web3.to_checksum_address` (lines 58, 73, 74, 124). -/
  to_checksum : String → Except PyExc String
  /-- `usdt_contract.functions.allowance(owner, spender).call()` (lines 76-78), in wei. -/
  allowanceOf : String → String → Except PyExc ℤ
  /-- `usdt_contract.functions.balanceOf(addr).call()` (lines 59-60), in wei. -/
  balanceOf : String → Except PyExc ℤ
  /-- `w3.eth.gas_price` (line 90), in wei. -/
  gas_price : Except PyExc ℤ
  /-- `w3.eth.estimate_gas(tx)` (line 101). -/
  estimate : Except PyExc ℤ
  /-- `w3.eth.get_transaction_count(my_address)` (line 144). -/
  transaction_count : Except PyExc ℤ
  /-- `transferFrom(from, my, amount_wei).build_transaction({from, nonce, gas, gasPrice})`
  (lines 146-161), applied to those five arguments in that order. -/
  build_txn : String → ℤ → ℤ → ℤ → ℤ → Except PyExc Unit
  /-- `w3.eth.account.sign_transaction(transaction, PRIVATE_KEY)` (lines 164-165). -/
  sign_txn : Except PyExc Unit
  /-- `w3.eth.send_raw_transaction(signed_txn.raw_transaction)` (lines 166-167);
  on success yields the transaction hash (as its hex rendering `tx_hash.hex()`). -/
  send_raw : Except PyExc String
  /-- Receipt-lookup outcomes available inside the confirmation window. -/
  polls : List PollResult

/-- The configuration constants imported from `config.py` (lines 11-14).
`config.py` is not part of the sources under verification, so these stay
abstract parameters. -/
structure Config where
  SPENDER_ADDRESS : String
  my_address : String
  DEFAULT_GAS_LIMIT : ℤ
  DEFAULT_GAS_PRICE_GWEI : ℤ

/-- Modelled from the spec: `config.py` (which defines `USDT_DECIMALS`) is
not under `src/`.  The spec's data model fixes a single configured decimal
precision used both for base-unit scaling and for message formatting, and
its example scenario and every message format in the source render amounts
with six decimal places (`:.6f`, e.g. `200.000000`), so the configured
precision is modelled as 6. -/
def USDT_DECIMALS : ℕ := 6

/-- Floor of a rational, computed as Euclidean division of numerator by
denominator (the denominator is positive, so `Int.ediv` rounds down). -/
def ratFloor (q : ℚ) : ℤ := q.num.ediv q.den

/-- Python `int()` applied to a (here: rational-valued) float: truncation
toward zero. -/
def pyInt (q : ℚ) : ℤ :=
  if q < 0 then -((-q).num.ediv ((-q).den : ℤ)) else q.num.ediv q.den

/-- Round to the nearest integer, ties to even — the rounding used both by
IEEE-754 binary64 arithmetic and by Python `format(x, '.6f')` at the last
kept digit. -/
def roundHalfEven (q : ℚ) : ℤ :=
  if q - ratFloor q < 1/2 then ratFloor q
  else if (1:ℚ)/2 < q - ratFloor q then ratFloor q + 1
  else if ratFloor q % 2 = 0 then ratFloor q else ratFloor q + 1

/-- Left-pad a digit string with zeros to the given length. -/
def padZeros (n : ℕ) (s : String) : String :=
  String.mk (List.replicate (n - s.length) '0') ++ s

/-- Python `f"{x:.6f}"`: the value rounded (half-even) to six decimal
places, rendered with an optional minus sign, the integer digits, a point,
and exactly six fractional digits. -/
def formatFixed6 (q : ℚ) : String :=
  (if roundHalfEven (q * 10 ^ 6) < 0 then "-" else "") ++
    toString ((roundHalfEven (q * 10 ^ 6)).natAbs / 10 ^ 6) ++ "." ++
    padZeros 6 (toString ((roundHalfEven (q * 10 ^ 6)).natAbs % 10 ^ 6))

/-- `BlockchainManager.validate_address` (lines 47-53): returns
`w3.is_address(address)`, and `False` if that raises. -/
def validate_address (env : ChainEnv) (address : String) : Bool :=
  match env.is_address address with
  | .ok b => b
  | .error _ => false

/-- `BlockchainManager.get_usdt_balance` (lines 55-65): checksums the
address, reads the ERC-20 balance in wei and scales it down by
`10 ** USDT_DECIMALS`; any exception yields `None`.  The Python float
division is idealised as exact rational division. -/
def get_usdt_balance (env : ChainEnv) (address : String) : Option ℚ :=
  match env.to_checksum address with
  | .error _ => none
  | .ok ca =>
    match env.balanceOf ca with
    | .error _ => none
    | .ok w => some ((w : ℚ) / 10 ^ USDT_DECIMALS)

/-- `BlockchainManager.get_allowance` (lines 67-85) with `spender = None`:
checksums owner and the configured `SPENDER_ADDRESS`, reads the allowance
in wei and scales it down by `10 ** USDT_DECIMALS`; any exception yields
`None`.  The Python float division is idealised as exact rational
division. -/
def get_allowance (cfg : Config) (env : ChainEnv) (owner : String) : Option ℚ :=
  match env.to_checksum owner with
  | .error _ => none
  | .ok co =>
    match env.to_checksum cfg.SPENDER_ADDRESS with
    | .error _ => none
    | .ok cs =>
      match env.allowanceOf co cs with
      | .error _ => none
      | .ok w => some ((w : ℚ) / 10 ^ USDT_DECIMALS)

/-- `BlockchainManager.get_gas_price` (lines 87-96): on success
`int(current_gas_price * 1.2)`, on any exception
`w3.to_wei(DEFAULT_GAS_PRICE_GWEI, "gwei")`, i.e. the default multiplied
by `10 ^ 9`.  The float literal `1.2` and the float multiplication are
idealised as the exact rational `6/5`. -/
def get_gas_price (cfg : Config) (env : ChainEnv) : ℤ :=
  match env.gas_price with
  | .ok p => pyInt ((p : ℚ) * (6/5))
  | .error _ => cfg.DEFAULT_GAS_PRICE_GWEI * 10 ^ 9

/-- `BlockchainManager.estimate_gas` (lines 98-106): on success
`int(estimated * 1.2)`, on any exception `DEFAULT_GAS_LIMIT`.  The float
arithmetic is idealised as exact rational arithmetic. -/
def estimate_gas (cfg : Config) (env : ChainEnv) : ℤ :=
  match env.estimate with
  | .ok g => pyInt ((g : ℚ) * (6/5))
  | .error _ => cfg.DEFAULT_GAS_LIMIT

/-- `BlockchainManager.wait_for_transaction` (lines 189-208) over the
sequence of receipt-lookup outcomes that fit inside the timeout window:
a found receipt is returned immediately; `TransactionNotFound` sleeps and
retries; the window closing (list exhausted) returns `None` (timeout,
line 204); any other exception is caught by the outer handler and also
returns `None` (lines 206-208). -/
def wait_for_transaction : List PollResult → Option Receipt
  | [] => none
  | PollResult.found r :: _ => some r
  | PollResult.notYet :: rest => wait_for_transaction rest
  | PollResult.err _ :: _ => none

/-- One chain-client interaction performed by `withdraw_usdt`, in program
order. -/
inductive Effect
  | queryAllowance
  | queryBalance
  | getNonce
  | estimateGasCall
  | queryGasPrice
  | buildTxn
  | signTxn
  | broadcast
  | awaitReceipt
deriving DecidableEq

/-- The success message of line 175. -/
def success_message (amount_usdt : ℚ) (tx_hash_hex : String) : String :=
  "✅ Successfully withdrawn " ++ formatFixed6 amount_usdt ++
    " USDT\n🔗 Transaction: https://bscscan.com/tx/" ++ tx_hash_hex

/-- The trace of client interactions up to and including the broadcast and
the confirmation wait. -/
def fullTrace : List Effect :=
  [Effect.queryAllowance, Effect.queryBalance, Effect.getNonce,
    Effect.estimateGasCall, Effect.queryGasPrice, Effect.buildTxn,
    Effect.signTxn, Effect.broadcast, Effect.awaitReceipt]

/-- The body of `withdraw_usdt` (lines 119-177), i.e. the `try` block:
exceptions propagate as `.error`, carrying the trace of client
interactions performed before the raise. -/
def withdrawBody (cfg : Config) (env : ChainEnv) (from_wallet : String)
    (amount_usdt : ℚ) :
    Except (PyExc × List Effect) ((Bool × String) × List Effect) :=
  if ¬ validate_address env from_wallet then
    .ok ((false, "Invalid wallet address"), [])
  else
    match env.to_checksum from_wallet with
    | .error e => .error (e, [])
    | .ok fw =>
      match get_allowance cfg env fw with
      | none => .ok ((false, "Failed to check allowance"), [Effect.queryAllowance])
      | some allowance =>
        if allowance < amount_usdt then
          .ok ((false, "Insufficient allowance. Available: " ++
                formatFixed6 allowance ++ " USDT"), [Effect.queryAllowance])
        else
          match get_usdt_balance env fw with
          | none => .ok ((false, "Failed to check wallet balance"),
              [Effect.queryAllowance, Effect.queryBalance])
          | some balance =>
            if balance < amount_usdt then
              .ok ((false, "Insufficient balance. Available: " ++
                    formatFixed6 balance ++ " USDT"),
                [Effect.queryAllowance, Effect.queryBalance])
            else
              match env.transaction_count with
              | .error e => .error (e,
                  [Effect.queryAllowance, Effect.queryBalance, Effect.getNonce])
              | .ok nonce =>
                match env.build_txn fw (pyInt (amount_usdt * 10 ^ USDT_DECIMALS))
                    nonce (estimate_gas cfg env) (get_gas_price cfg env) with
                | .error e => .error (e,
                    [Effect.queryAllowance, Effect.queryBalance, Effect.getNonce,
                      Effect.estimateGasCall, Effect.queryGasPrice, Effect.buildTxn])
                | .ok _ =>
                  match env.sign_txn with
                  | .error e => .error (e,
                      [Effect.queryAllowance, Effect.queryBalance, Effect.getNonce,
                        Effect.estimateGasCall, Effect.queryGasPrice, Effect.buildTxn,
                        Effect.signTxn])
                  | .ok _ =>
                    match env.send_raw with
                    | .error e => .error (e,
                        [Effect.queryAllowance, Effect.queryBalance, Effect.getNonce,
                          Effect.estimateGasCall, Effect.queryGasPrice, Effect.buildTxn,
                          Effect.signTxn, Effect.broadcast])
                    | .ok tx_hash_hex =>
                      match wait_for_transaction env.polls with
                      | some r =>
                        if r.status = 1 then
                          .ok ((true, success_message amount_usdt tx_hash_hex), fullTrace)
                        else
                          .ok ((false, "Transaction failed or was reverted"), fullTrace)
                      | none =>
                        .ok ((false, "Transaction failed or was reverted"), fullTrace)

/-- The exception handler of `withdraw_usdt` (lines 179-187). -/
def handleExc : PyExc → Bool × String
  | PyExc.contractLogic m => (false, "Smart contract error: " ++ m)
  | PyExc.valueError m => (false, "Transaction error: " ++ m)
  | PyExc.other m => (false, "Unexpected error: " ++ m)

/-- `BlockchainManager.withdraw_usdt` (lines 108-187): the `try` body with
its exception handler, returning the `(success, message)` pair together
with the trace of chain-client interactions performed. -/
def withdraw_usdt (cfg : Config) (env : ChainEnv) (from_wallet : String)
    (amount_usdt : ℚ) : (Bool × String) × List Effect :=
  match withdrawBody cfg env from_wallet amount_usdt with
  | .ok r => r
  | .error (e, tr) => (handleExc e, tr)

/-- Is an effect the broadcast? -/
def isBroadcast : Effect → Bool
  | Effect.broadcast => true
  | _ => false

/-- Number of broadcast attempts recorded in a trace. -/
def countBroadcasts (l : List Effect) : ℕ := (l.filter isBroadcast).length

/-- ⌊log₂ x⌋ for a positive rational `x`: first guess from the bit lengths
of numerator and denominator, then correct by at most one in either
direction. -/
def floorLog2Q (x : ℚ) : ℤ :=
  if (2:ℚ) ^ ((Nat.log2 x.num.natAbs : ℤ) - (Nat.log2 x.den : ℤ) + 1) ≤ x then
    (Nat.log2 x.num.natAbs : ℤ) - (Nat.log2 x.den : ℤ) + 1
  else if x < (2:ℚ) ^ ((Nat.log2 x.num.natAbs : ℤ) - (Nat.log2 x.den : ℤ)) then
    (Nat.log2 x.num.natAbs : ℤ) - (Nat.log2 x.den : ℤ) - 1
  else (Nat.log2 x.num.natAbs : ℤ) - (Nat.log2 x.den : ℤ)

/-- Magnitude of a rational. -/
def ratAbs (x : ℚ) : ℚ := if x < 0 then -x else x

/-- The IEEE-754 binary64 value nearest to the exact rational `x`
(round-to-nearest, ties-to-even), for `x` in the normal range: the
53-bit significand is `roundHalfEven (|x| / 2 ^ (⌊log₂ |x|⌋ - 52))`.
Subnormals and overflow are outside the magnitudes that occur here.
This models the value Python's float arithmetic produces for each
individual operation, each of which is correctly rounded. -/
def fl64 (x : ℚ) : ℚ :=
  if x = 0 then 0
  else (if x < 0 then (-1:ℚ) else 1) *
    (roundHalfEven (ratAbs x / (2:ℚ) ^ (floorLog2Q (ratAbs x) - 52)) : ℤ) *
    (2:ℚ) ^ (floorLog2Q (ratAbs x) - 52)

/-- Line 125, `amount_wei = int(amount_usdt * (10 ** USDT_DECIMALS))`,
under faithful Python float semantics: `amount_usdt` is already a binary64
value, `10 ** USDT_DECIMALS = 10 ^ 6` converts to binary64 exactly, the
product is rounded to the nearest binary64, and `int()` truncates toward
zero. -/
def toWeiFloat (amount_usdt : ℚ) : ℤ :=
  pyInt (fl64 (amount_usdt * 10 ^ USDT_DECIMALS))

/-- Case analysis helper: the trace carried by a `withdrawBody` result,
whether it returned or raised. -/
def bodyTrace : Except (PyExc × List Effect) ((Bool × String) × List Effect) → List Effect
  | Except.ok (_, tr) => tr
  | Except.error (_, tr) => tr

/-- A configuration with concrete values, for instantiating the
conditional theorems below. -/
def cfg0 : Config :=
  { SPENDER_ADDRESS := "0xSpender", my_address := "0xAgent",
    DEFAULT_GAS_LIMIT := 100000, DEFAULT_GAS_PRICE_GWEI := 5 }

/-- A fully cooperative chain client: the source address validates, the
allowance reads as 500 USDT (in wei), the balance as 1000 USDT, and
building, signing and broadcasting all succeed, with the given
receipt-lookup outcomes. -/
def envOk (polls : List PollResult) : ChainEnv :=
  { is_address := fun _ => Except.ok true
    to_checksum := fun s => Except.ok s
    allowanceOf := fun _ _ => Except.ok 500000000
    balanceOf := fun _ => Except.ok 1000000000
    gas_price := Except.ok 5000000000
    estimate := Except.ok 50000
    transaction_count := Except.ok 7
    build_txn := fun _ _ _ _ _ => Except.ok ()
    sign_txn := Except.ok ()
    send_raw := Except.ok "0xabc"
    polls := polls }

/-- `envOk` with the source balance lowered to 100 USDT. -/
def envLowBalance : ChainEnv :=
  { envOk [] with balanceOf := fun _ => Except.ok 100000000 }

/-- `envOk` with address validation failing. -/
def envBadAddress : ChainEnv :=
  { envOk [] with is_address := fun _ => Except.ok false }

/-- `envOk` with the gas-price read raising. -/
def envGasFail : ChainEnv :=
  { envOk [] with gas_price := Except.error (PyExc.other "rpc unreachable") }

theorem ratFloor_eq_floor (q : ℚ) : ratFloor q = ⌊q⌋ := by
  rw [Rat.floor_def]
  exact rfl

theorem roundHalfEven_intCast (w : ℤ) : roundHalfEven ((w : ℚ)) = w := by
  norm_num [roundHalfEven, ratFloor_eq_floor]

theorem pyInt_eq_floor (q : ℚ) (h : 0 ≤ q) : pyInt q = ⌊q⌋ := by
  rw [pyInt, if_neg (not_lt.mpr h)]
  exact ratFloor_eq_floor q

theorem get_allowance_wei (cfg : Config) (env : ChainEnv) (o : String) (al : ℚ)
    (h : get_allowance cfg env o = some al) :
    ∃ w : ℤ, al = (w : ℚ) / 10 ^ USDT_DECIMALS := by
  unfold get_allowance at h
  repeat' split at h
  all_goals simp_all
  exact ⟨_, h.symm⟩

theorem get_usdt_balance_wei (env : ChainEnv) (o : String) (b : ℚ)
    (h : get_usdt_balance env o = some b) :
    ∃ w : ℤ, b = (w : ℚ) / 10 ^ USDT_DECIMALS := by
  unfold get_usdt_balance at h
  repeat' split at h
  all_goals simp_all
  exact ⟨_, h.symm⟩

/-- A quantity read from the chain is a whole number of wei, so rounding
its scaled value to six decimal places (as `formatFixed6` does) is exact:
the printed numeral denotes the quantity itself. -/
theorem scaled_exact (x : ℚ) (w : ℤ) (hx : x = (w : ℚ) / 10 ^ USDT_DECIMALS) :
    (roundHalfEven (x * 10 ^ 6) : ℚ) = x * 10 ^ 6 := by
  have h6 : x * 10 ^ 6 = (w : ℚ) := by
    rw [hx, USDT_DECIMALS]
    field_simp
  rw [h6, roundHalfEven_intCast]

theorem withdraw_trace_eq (cfg : Config) (env : ChainEnv) (f : String) (a : ℚ) :
    (withdraw_usdt cfg env f a).2 = bodyTrace (withdrawBody cfg env f a) := by
  cases h : withdrawBody cfg env f a with
  | ok r => obtain ⟨rr, tr⟩ := r; simp [withdraw_usdt, h, bodyTrace]
  | error p => obtain ⟨e, tr⟩ := p; simp [withdraw_usdt, h, bodyTrace]

theorem body_count (cfg : Config) (env : ChainEnv) (f : String) (a : ℚ) :
    countBroadcasts (bodyTrace (withdrawBody cfg env f a)) ≤ 1 := by
  unfold withdrawBody
  repeat' split
  all_goals simp [bodyTrace, countBroadcasts, isBroadcast, fullTrace]

/-- C1, counterexample: with a cooperative client, a confirmation timeout
(no receipt within the window) and a reverted receipt (status 0) make
`withdraw_usdt` return the very same message, "Transaction failed or was
reverted" — not "confirmation timeout" for the former nor "reverted" for
the latter, so the two outcomes are not distinguishable. -/
theorem timeout_and_revert_share_message :
    (withdraw_usdt cfg0 (envOk []) "0xSource" 200).1 =
      (false, "Transaction failed or was reverted") ∧
    (withdraw_usdt cfg0 (envOk [PollResult.found ⟨0⟩]) "0xSource" 200).1 =
      (false, "Transaction failed or was reverted") ∧
    "Transaction failed or was reverted" ≠ "confirmation timeout" ∧
    "Transaction failed or was reverted" ≠ "reverted" := by
  refine ⟨?_, ?_, by decide, by decide⟩ <;>
  · norm_num [withdraw_usdt, withdrawBody, validate_address, get_allowance, get_usdt_balance,
      envOk, cfg0, wait_for_transaction, USDT_DECIMALS]

/-- C1, amended: whenever the broadcast succeeds, both the timeout outcome
(`wait_for_transaction` returns `none`) and the revert outcome (a receipt
with status ≠ 1) make `withdraw_usdt` return
`(false, "Transaction failed or was reverted")`. -/
theorem withdraw_failure_message_on_timeout_or_revert (cfg : Config) (env : ChainEnv)
    (f : String) (a : ℚ) (fw : String) (al bal : ℚ) (nonce : ℤ) (txh : String)
    (hv : validate_address env f = true)
    (hc : env.to_checksum f = Except.ok fw)
    (hal : get_allowance cfg env fw = some al)
    (hge : ¬ al < a)
    (hb : get_usdt_balance env fw = some bal)
    (hbge : ¬ bal < a)
    (hn : env.transaction_count = Except.ok nonce)
    (hbuild : env.build_txn fw (pyInt (a * 10 ^ USDT_DECIMALS)) nonce
      (estimate_gas cfg env) (get_gas_price cfg env) = Except.ok ())
    (hsign : env.sign_txn = Except.ok ())
    (hsend : env.send_raw = Except.ok txh)
    (hfail : wait_for_transaction env.polls = none ∨
      ∃ r, wait_for_transaction env.polls = some r ∧ ¬ r.status = 1) :
    withdraw_usdt cfg env f a =
      ((false, "Transaction failed or was reverted"), fullTrace) := by
  rcases hfail with hw | ⟨r, hw, hst⟩
  · simp [withdraw_usdt, withdrawBody, hv, hc, hal, hge, hb, hbge, hn, hbuild, hsign, hsend, hw]
  · simp [withdraw_usdt, withdrawBody, hv, hc, hal, hge, hb, hbge, hn, hbuild, hsign, hsend, hw,
      hst]

/-- C1, witness for the amended theorem, at the timeout outcome. -/
theorem withdraw_failure_message_on_timeout_or_revert_witness :
    withdraw_usdt cfg0 (envOk []) "0xSource" 200 =
      ((false, "Transaction failed or was reverted"), fullTrace) := by
  exact withdraw_failure_message_on_timeout_or_revert cfg0 (envOk []) "0xSource" 200
    "0xSource" _ _ 7 "0xabc" rfl rfl rfl (by norm_num [envOk, get_allowance, USDT_DECIMALS, cfg0])
    rfl (by norm_num [envOk, get_usdt_balance, USDT_DECIMALS]) rfl rfl rfl rfl (Or.inl rfl)

/-- C2: the base-unit conversion of line 125 is not exact under the
source's float arithmetic.  At the requested amount 8.165 (whose binary64
value is `fl64 (8165/1000)`), the code computes
`int(amount_usdt * 10 ** USDT_DECIMALS) = 8164999` wei, while the exact
decimal-to-integer scaling of 8.165 by `10 ^ USDT_DECIMALS` yields
8165000: one base unit is lost to binary floating point rounding. -/
theorem amount_wei_conversion_inexact_at_8165 :
    toWeiFloat (fl64 ((8165 : ℚ) / 1000)) = 8164999 ∧
    pyInt (((8165 : ℚ) / 1000) * 10 ^ USDT_DECIMALS) = 8165000 ∧
    toWeiFloat (fl64 ((8165 : ℚ) / 1000)) ≠ pyInt (((8165 : ℚ) / 1000) * 10 ^ USDT_DECIMALS) := by
  have hfl : fl64 ((8165 : ℚ) / 1000) = 1149121592421253 / 140737488355328 := by
    have ha : ratAbs ((8165 : ℚ) / 1000) = (8165 : ℚ) / 1000 := by norm_num [ratAbs]
    have he : floorLog2Q ((8165 : ℚ) / 1000) = 3 := by norm_num [floorLog2Q, Nat.log2]
    have hr : roundHalfEven ((8165 : ℚ) / 1000 / (2 : ℚ) ^ ((3 : ℤ) - 52)) =
        4596486369685012 := by
      norm_num [roundHalfEven, ratFloor]
    rw [fl64, if_neg (by norm_num), if_neg (by norm_num), ha, he, hr]
    norm_num
  have hprod : (1149121592421253 : ℚ) / 140737488355328 * 10 ^ USDT_DECIMALS =
      17955024881582078125 / 2199023255552 := by
    norm_num [USDT_DECIMALS]
  have hfl2 : fl64 ((17955024881582078125 : ℚ) / 2199023255552) =
      8767101992959999 / 1073741824 := by
    have ha : ratAbs ((17955024881582078125 : ℚ) / 2199023255552) =
        (17955024881582078125 : ℚ) / 2199023255552 := by norm_num [ratAbs]
    have he : floorLog2Q ((17955024881582078125 : ℚ) / 2199023255552) = 22 := by
      norm_num [floorLog2Q, Nat.log2]
    have hr : roundHalfEven ((17955024881582078125 : ℚ) / 2199023255552 /
        (2 : ℚ) ^ ((22 : ℤ) - 52)) = 8767101992959999 := by
      norm_num [roundHalfEven, ratFloor]
    rw [fl64, if_neg (by norm_num), if_neg (by norm_num), ha, he, hr]
    norm_num
  have hcode : toWeiFloat (fl64 ((8165 : ℚ) / 1000)) = 8164999 := by
    rw [toWeiFloat, hfl, hprod, hfl2]
    norm_num [pyInt]
  have hexact : pyInt (((8165 : ℚ) / 1000) * 10 ^ USDT_DECIMALS) = 8165000 := by
    norm_num [pyInt, USDT_DECIMALS]
  exact ⟨hcode, hexact, by rw [hcode, hexact]; decide⟩

/-- C3: when the broadcast succeeds and the polled receipt has status 1,
`withdraw_usdt` returns `true` with the success message, which contains
the requested amount formatted to six decimal places (the configured
precision) and a bscscan URL containing the transaction hash. -/
theorem withdraw_success_message (cfg : Config) (env : ChainEnv)
    (f : String) (a : ℚ) (fw : String) (al bal : ℚ) (nonce : ℤ) (txh : String) (r : Receipt)
    (hv : validate_address env f = true)
    (hc : env.to_checksum f = Except.ok fw)
    (hal : get_allowance cfg env fw = some al)
    (hge : ¬ al < a)
    (hb : get_usdt_balance env fw = some bal)
    (hbge : ¬ bal < a)
    (hn : env.transaction_count = Except.ok nonce)
    (hbuild : env.build_txn fw (pyInt (a * 10 ^ USDT_DECIMALS)) nonce
      (estimate_gas cfg env) (get_gas_price cfg env) = Except.ok ())
    (hsign : env.sign_txn = Except.ok ())
    (hsend : env.send_raw = Except.ok txh)
    (hw : wait_for_transaction env.polls = some r)
    (hst : r.status = 1) :
    withdraw_usdt cfg env f a = ((true, success_message a txh), fullTrace) ∧
    (∃ p s, success_message a txh = p ++ formatFixed6 a ++ s) ∧
    (∃ p s, success_message a txh = p ++ ("https://bscscan.com/tx/" ++ txh) ++ s) := by
  refine ⟨?_, ?_, ?_⟩
  · simp [withdraw_usdt, withdrawBody, hv, hc, hal, hge, hb, hbge, hn, hbuild, hsign, hsend,
      hw, hst]
  · exact ⟨"✅ Successfully withdrawn ",
      " USDT\n🔗 Transaction: https://bscscan.com/tx/" ++ txh,
      by simp [success_message, String.append_assoc]⟩
  · refine ⟨"✅ Successfully withdrawn " ++ formatFixed6 a ++ " USDT\n🔗 Transaction: ", "", ?_⟩
    simp only [success_message, String.append_assoc]
    simp
    exact rfl

/-- C3, witness: the success path at a receipt with status 1. -/
theorem withdraw_success_message_witness :
    withdraw_usdt cfg0 (envOk [PollResult.found ⟨1⟩]) "0xSource" 200 =
      ((true, success_message 200 "0xabc"), fullTrace) ∧
    (∃ p s, success_message 200 "0xabc" = p ++ formatFixed6 200 ++ s) := by
  have h := withdraw_success_message cfg0 (envOk [PollResult.found ⟨1⟩]) "0xSource" 200
    "0xSource" _ _ 7 "0xabc" ⟨1⟩ rfl rfl rfl
    (by norm_num [envOk, get_allowance, USDT_DECIMALS, cfg0]) rfl
    (by norm_num [envOk, get_usdt_balance, USDT_DECIMALS]) rfl rfl rfl rfl rfl rfl
  exact ⟨h.1, h.2.1⟩

/-- C4: when the live allowance reads below the requested amount,
`withdraw_usdt` fails with the insufficient-allowance message embedding
exactly the allowance that was read (a whole number of wei, rendered
exactly by the six-decimal format), and the trace shows that no
transaction was built, signed or broadcast. -/
theorem withdraw_insufficient_allowance (cfg : Config) (env : ChainEnv)
    (f : String) (a : ℚ) (fw : String) (al : ℚ)
    (hv : validate_address env f = true)
    (hc : env.to_checksum f = Except.ok fw)
    (hal : get_allowance cfg env fw = some al)
    (hlt : al < a) :
    withdraw_usdt cfg env f a =
      ((false, "Insufficient allowance. Available: " ++ formatFixed6 al ++ " USDT"),
        [Effect.queryAllowance]) ∧
    Effect.buildTxn ∉ (withdraw_usdt cfg env f a).2 ∧
    Effect.signTxn ∉ (withdraw_usdt cfg env f a).2 ∧
    Effect.broadcast ∉ (withdraw_usdt cfg env f a).2 ∧
    (∃ w : ℤ, al = (w : ℚ) / 10 ^ USDT_DECIMALS ∧
      (roundHalfEven (al * 10 ^ 6) : ℚ) = al * 10 ^ 6) := by
  have hmain : withdraw_usdt cfg env f a =
      ((false, "Insufficient allowance. Available: " ++ formatFixed6 al ++ " USDT"),
        [Effect.queryAllowance]) := by
    simp [withdraw_usdt, withdrawBody, hv, hc, hal, hlt]
  obtain ⟨w, hw⟩ := get_allowance_wei cfg env fw al hal
  exact ⟨hmain, by simp [hmain], by simp [hmain], by simp [hmain],
    ⟨w, hw, scaled_exact al w hw⟩⟩

/-- C4, witness: requesting 600 against a 500-USDT allowance. -/
theorem withdraw_insufficient_allowance_witness :
    withdraw_usdt cfg0 (envOk []) "0xSource" 600 =
      ((false, "Insufficient allowance. Available: " ++
        formatFixed6 (((500000000 : ℤ) : ℚ) / 10 ^ USDT_DECIMALS) ++ " USDT"),
        [Effect.queryAllowance]) ∧
    Effect.broadcast ∉ (withdraw_usdt cfg0 (envOk []) "0xSource" 600).2 := by
  have h := withdraw_insufficient_allowance cfg0 (envOk []) "0xSource" 600 "0xSource"
    (((500000000 : ℤ) : ℚ) / 10 ^ USDT_DECIMALS) rfl rfl rfl
    (by norm_num [USDT_DECIMALS])
  exact ⟨h.1, h.2.2.2.1⟩

/-- C5: first part — when the allowance suffices but the live balance
reads below the requested amount, `withdraw_usdt` fails with the
insufficient-balance message embedding exactly the balance that was read,
and nothing is built, signed or broadcast.  Second part — whenever the
allowance check fails (unreadable or insufficient), the balance is never
queried: the allowance check strictly precedes the balance check. -/
theorem withdraw_insufficient_balance_and_check_order :
    (∀ (cfg : Config) (env : ChainEnv) (f : String) (a : ℚ) (fw : String) (al bal : ℚ),
      validate_address env f = true →
      env.to_checksum f = Except.ok fw →
      get_allowance cfg env fw = some al →
      ¬ al < a →
      get_usdt_balance env fw = some bal →
      bal < a →
      withdraw_usdt cfg env f a =
        ((false, "Insufficient balance. Available: " ++ formatFixed6 bal ++ " USDT"),
          [Effect.queryAllowance, Effect.queryBalance]) ∧
      Effect.buildTxn ∉ (withdraw_usdt cfg env f a).2 ∧
      Effect.signTxn ∉ (withdraw_usdt cfg env f a).2 ∧
      Effect.broadcast ∉ (withdraw_usdt cfg env f a).2 ∧
      (∃ w : ℤ, bal = (w : ℚ) / 10 ^ USDT_DECIMALS ∧
        (roundHalfEven (bal * 10 ^ 6) : ℚ) = bal * 10 ^ 6)) ∧
    (∀ (cfg : Config) (env : ChainEnv) (f : String) (a : ℚ) (fw : String),
      validate_address env f = true →
      env.to_checksum f = Except.ok fw →
      (get_allowance cfg env fw = none ∨
        ∃ al, get_allowance cfg env fw = some al ∧ al < a) →
      Effect.queryBalance ∉ (withdraw_usdt cfg env f a).2) := by
  constructor
  · intro cfg env f a fw al bal hv hc hal hge hb hlt
    have hmain : withdraw_usdt cfg env f a =
        ((false, "Insufficient balance. Available: " ++ formatFixed6 bal ++ " USDT"),
          [Effect.queryAllowance, Effect.queryBalance]) := by
      simp [withdraw_usdt, withdrawBody, hv, hc, hal, hge, hb, hlt]
    obtain ⟨w, hw⟩ := get_usdt_balance_wei env fw bal hb
    exact ⟨hmain, by simp [hmain], by simp [hmain], by simp [hmain],
      ⟨w, hw, scaled_exact bal w hw⟩⟩
  · intro cfg env f a fw hv hc hfail
    rcases hfail with hnone | ⟨al, hal, hlt⟩
    · simp [withdraw_usdt, withdrawBody, hv, hc, hnone]
    · simp [withdraw_usdt, withdrawBody, hv, hc, hal, hlt]

/-- C5, witness: requesting 200 against allowance 500 but balance 100, and
requesting 600 against allowance 500 (balance never queried). -/
theorem withdraw_insufficient_balance_and_check_order_witness :
    withdraw_usdt cfg0 envLowBalance "0xSource" 200 =
      ((false, "Insufficient balance. Available: " ++
        formatFixed6 (((100000000 : ℤ) : ℚ) / 10 ^ USDT_DECIMALS) ++ " USDT"),
        [Effect.queryAllowance, Effect.queryBalance]) ∧
    Effect.queryBalance ∉ (withdraw_usdt cfg0 (envOk []) "0xSource" 600).2 := by
  constructor
  · exact (withdraw_insufficient_balance_and_check_order.1 cfg0 envLowBalance "0xSource" 200
      "0xSource" (((500000000 : ℤ) : ℚ) / 10 ^ USDT_DECIMALS)
      (((100000000 : ℤ) : ℚ) / 10 ^ USDT_DECIMALS) rfl rfl rfl
      (by norm_num [USDT_DECIMALS]) rfl (by norm_num [USDT_DECIMALS])).1
  · exact withdraw_insufficient_balance_and_check_order.2 cfg0 (envOk []) "0xSource" 600
      "0xSource" rfl rfl
      (Or.inr ⟨((500000000 : ℤ) : ℚ) / 10 ^ USDT_DECIMALS, rfl, by norm_num [USDT_DECIMALS]⟩)

/-- C6: when address validation fails, `withdraw_usdt` returns
`(false, "Invalid wallet address")` and performs no chain query at all —
in particular neither the allowance nor the balance is read. -/
theorem withdraw_invalid_address (cfg : Config) (env : ChainEnv) (f : String) (a : ℚ)
    (hv : validate_address env f = false) :
    withdraw_usdt cfg env f a = ((false, "Invalid wallet address"), []) ∧
    Effect.queryAllowance ∉ (withdraw_usdt cfg env f a).2 ∧
    Effect.queryBalance ∉ (withdraw_usdt cfg env f a).2 := by
  have hmain : withdraw_usdt cfg env f a = ((false, "Invalid wallet address"), []) := by
    simp [withdraw_usdt, withdrawBody, hv]
  exact ⟨hmain, by simp [hmain], by simp [hmain]⟩

/-- C6, witness: a string the client does not recognise as an address. -/
theorem withdraw_invalid_address_witness :
    withdraw_usdt cfg0 envBadAddress "not-an-address" 200 =
      ((false, "Invalid wallet address"), []) ∧
    Effect.queryAllowance ∉ (withdraw_usdt cfg0 envBadAddress "not-an-address" 200).2 := by
  have h := withdraw_invalid_address cfg0 envBadAddress "not-an-address" 200 rfl
  exact ⟨h.1, h.2.1⟩

/-- C7: `withdraw_usdt` is the total handler of its body: whatever the
chain client does, either the body returns normally and `withdraw_usdt`
returns that `(success, message)` pair, or the body raises some Python
exception and `withdraw_usdt` returns the handler's normalisation of it,
which is always of the shape `(false, message)`.  No exception escapes. -/
theorem withdraw_normalizes_exceptions (cfg : Config) (env : ChainEnv) (f : String) (a : ℚ) :
    (∃ r, withdrawBody cfg env f a = Except.ok r ∧ withdraw_usdt cfg env f a = r) ∨
    (∃ e tr, withdrawBody cfg env f a = Except.error (e, tr) ∧
      withdraw_usdt cfg env f a = (handleExc e, tr) ∧ (handleExc e).1 = false) := by
  cases h : withdrawBody cfg env f a with
  | ok r => exact Or.inl ⟨r, rfl, by simp [withdraw_usdt, h]⟩
  | error p =>
    refine Or.inr ⟨p.1, p.2, ?_, by simp [withdraw_usdt, h], ?_⟩
    · simp
    · cases p.1 <;> rfl

/-- C8: `get_gas_price` never propagates a failure.  When the live query
returns `p ≥ 0` it yields `⌊p * 1.2⌋` (the 20% premium, rounded down);
when the query raises, it yields exactly the configured default gas price
converted from gwei to wei. -/
theorem get_gas_price_premium_or_default (cfg : Config) (env : ChainEnv) :
    (∀ p : ℤ, env.gas_price = Except.ok p → 0 ≤ p →
      get_gas_price cfg env = ⌊(p : ℚ) * (6/5)⌋) ∧
    (∀ e : PyExc, env.gas_price = Except.error e →
      get_gas_price cfg env = cfg.DEFAULT_GAS_PRICE_GWEI * 10 ^ 9) := by
  constructor
  · intro p hp hp0
    rw [get_gas_price, hp]
    exact pyInt_eq_floor _ (by positivity)
  · intro e he
    rw [get_gas_price, he]

/-- C8, witness: a 5 gwei network price gains the 20% premium; a failing
query falls back to the configured 5 gwei default in wei. -/
theorem get_gas_price_premium_or_default_witness :
    get_gas_price cfg0 (envOk []) = 6000000000 ∧
    get_gas_price cfg0 envGasFail = 5 * 10 ^ 9 := by
  constructor
  · have h := (get_gas_price_premium_or_default cfg0 (envOk [])).1 5000000000 rfl (by norm_num)
    rw [h]
    have h65 : ((5000000000 : ℤ) : ℚ) * (6/5) = ((6000000000 : ℤ) : ℚ) := by norm_num
    rw [h65, Int.floor_intCast]
  · exact (get_gas_price_premium_or_default cfg0 envGasFail).2 (PyExc.other "rpc unreachable") rfl

/-- C9: a single `withdraw_usdt` call records at most one broadcast
attempt in its interaction trace, on every path, including every
exceptional one — a rejected broadcast is never retried. -/
theorem withdraw_at_most_one_broadcast (cfg : Config) (env : ChainEnv) (f : String) (a : ℚ) :
    countBroadcasts (withdraw_usdt cfg env f a).2 ≤ 1 := by
  rw [withdraw_trace_eq]
  exact body_count cfg env f a

/-- C10: `wait_for_transaction` returns `none` both when every lookup in
the window reports "not found yet" (timeout) and when some lookup raises a
hard error after any number of "not found yet" outcomes — the two
conditions are indistinguishable at the poller's interface. -/
theorem wait_for_transaction_conflates_error_and_timeout :
    (∀ polls : List PollResult, (∀ p ∈ polls, p = PollResult.notYet) →
      wait_for_transaction polls = none) ∧
    (∀ (pre post : List PollResult) (e : PyExc), (∀ p ∈ pre, p = PollResult.notYet) →
      wait_for_transaction (pre ++ PollResult.err e :: post) = none) := by
  constructor
  · intro polls h
    induction polls with
    | nil => rfl
    | cons p rest ih =>
      have hp := h p (List.mem_cons_self p rest)
      subst hp
      exact ih fun q hq => h q (List.mem_cons_of_mem _ hq)
  · intro pre post e h
    induction pre with
    | nil => rfl
    | cons p rest ih =>
      have hp := h p (List.mem_cons_self p rest)
      subst hp
      exact ih fun q hq => h q (List.mem_cons_of_mem _ hq)

/-- C10, witness: a window of two fruitless lookups times out to `none`,
and a hard error on the second lookup also yields `none`. -/
theorem wait_for_transaction_conflates_error_and_timeout_witness :
    wait_for_transaction [PollResult.notYet, PollResult.notYet] = none ∧
    wait_for_transaction
      [PollResult.notYet, PollResult.err (PyExc.other "node error"), PollResult.notYet] = none := by
  constructor
  · exact wait_for_transaction_conflates_error_and_timeout.1
      [PollResult.notYet, PollResult.notYet] (by decide)
  · exact wait_for_transaction_conflates_error_and_timeout.2
      [PollResult.notYet] [PollResult.notYet] (PyExc.other "node error") (by decide)
